import Mathlib

/-!
Verification development for the real-time audio capture/playback and
turn-taking coordination subsystem of the Realtime HALfred voice front end
(`main.py`).  Each Python component relevant to the turn-state machine, the
speech synthesizer, the capture bridge, the push-to-talk key parser and the
liveness monitor is shallowly embedded as an executable Lean definition,
and the specified properties are settled as theorems about those
definitions.  Time is modelled in whole milliseconds (the source uses
float seconds), PCM byte counts as naturals, and asynchronous interleaving
as explicit per-iteration observation records.
-/

set_option maxRecDepth 4000

/-- The turn commit state tracked in `ListenState.turn_state`
(`main.py`, the string field with values "idle", "awaiting_speech_end",
"committed"). -/
inductive TurnState where
  | idle
  | awaiting_speech_end
  | committed
deriving DecidableEq, Repr

/-- The `ListenState` dataclass of `main.py` (fields used by the turn
coordinator; `speech_ended_event` and `last_server_event_time` are modelled
separately where needed). -/
structure ListenState where
  enabled : Bool
  ptt_mode : Bool
  ptt_active : Bool
  ptt_interrupts : Bool
  turn_state : TurnState
  bytes_appended_since_commit : Nat
deriving DecidableEq, Repr

/-- Minimum audio required before a commit (`MIN_AUDIO_BYTES = 4800` in
`mic_send_loop`, 100ms at 24kHz). -/
def MIN_AUDIO_BYTES : Nat := 4800

/-- Silence chunk size streamed per wait iteration in PTT mode
(`silence_chunk_size = 4800` in `mic_send_loop`). -/
def SILENCE_CHUNK_SIZE : Nat := 4800

/-- Maximum wait for the server speech-ended notification, in ms
(`max_wait_time = 1.5` seconds in `mic_send_loop`). -/
def MAX_WAIT_MS : Nat := 1500

/-- Fixed silence padding appended on a continuous-mode commit:
12000 samples at 2 bytes each (`silence_duration_samples = 12000`). -/
def CONTINUOUS_PAD_BYTES : Nat := 12000 * 2

/-- Observable effects of the turn coordinator on one sentinel.
`send_audio n c` is a `session.send_audio` call with `n` bytes and
commit flag `c`; `force_commit_local` marks the local fallback
`listen_state.turn_state = "committed"` taken when the bounded wait
elapses (`mic_send_loop`, timeout branch). -/
inductive SendAction where
  | send_audio (nbytes : Nat) (commit : Bool)
  | force_commit_local
deriving DecidableEq, Repr

/-- What the concurrent environment does during one iteration of the PTT
wait loop in `mic_send_loop`: whether `speech_ended_event` became set
within the 100 ms `asyncio.wait_for`, whether the event loop processed an
`input_audio_buffer.committed` server event during the wait (which sets
`turn_state = "committed"` and zeroes the byte counter in `event_loop`),
and how many milliseconds of wall clock the iteration consumed. -/
structure WaitObs where
  speechEnded : Bool
  committedByServer : Bool
  duration : Nat
deriving DecidableEq, Repr

/-- The `while listen_state.turn_state == "awaiting_speech_end"` loop of
`mic_send_loop` in PTT mode: each iteration sends one silence chunk
(`commit=False`, incrementing the byte counter), then waits on
`speech_ended_event`; if the event fired and the server commit has been
observed, the loop breaks; otherwise, once the elapsed time exceeds
`max_wait_time`, the coordinator force-marks the turn committed locally
(resetting the byte counter) without sending a commit. -/
def pttWaitLoop (env : List WaitObs) (s : ListenState) (elapsed : Nat) :
    ListenState × List SendAction :=
  match env with
  | [] => (s, [])
  | o :: rest =>
    if s.turn_state ≠ TurnState.awaiting_speech_end then (s, [])
    else
      let s1 : ListenState :=
        { s with bytes_appended_since_commit :=
            s.bytes_appended_since_commit + SILENCE_CHUNK_SIZE }
      let s2 : ListenState :=
        if o.committedByServer then
          { s1 with turn_state := TurnState.committed,
                    bytes_appended_since_commit := 0 }
        else s1
      let elapsed2 := elapsed + o.duration
      if o.speechEnded = true ∧ s2.turn_state = TurnState.committed then
        (s2, [SendAction.send_audio SILENCE_CHUNK_SIZE false])
      else if MAX_WAIT_MS < elapsed2 then
        ({ s2 with turn_state := TurnState.committed,
                   bytes_appended_since_commit := 0 },
         [SendAction.send_audio SILENCE_CHUNK_SIZE false,
          SendAction.force_commit_local])
      else
        let r := pttWaitLoop rest s2 elapsed2
        (r.1, SendAction.send_audio SILENCE_CHUNK_SIZE false :: r.2)

/-- Handling of the end-of-turn sentinel (`chunk is None`) in
`mic_send_loop`: ignore if already committed; silently drop and reset to
idle when fewer than `MIN_AUDIO_BYTES` were appended; in PTT mode enter
`awaiting_speech_end` and run the silence/wait loop; in continuous mode
mark committed, send the fixed silence pad with `commit=True`, and reset
the byte counter. -/
def mic_send_on_sentinel (env : List WaitObs) (s : ListenState) :
    ListenState × List SendAction :=
  if s.turn_state = TurnState.committed then (s, [])
  else if s.bytes_appended_since_commit < MIN_AUDIO_BYTES then
    ({ s with turn_state := TurnState.idle,
              bytes_appended_since_commit := 0 }, [])
  else if s.ptt_mode then
    pttWaitLoop env { s with turn_state := TurnState.awaiting_speech_end } 0
  else
    ({ s with turn_state := TurnState.committed,
              bytes_appended_since_commit := 0 },
     [SendAction.send_audio CONTINUOUS_PAD_BYTES true])

/-- Concrete already-committed state used to witness the double-commit
guard. -/
def sCommitted : ListenState :=
  { enabled := false, ptt_mode := true, ptt_active := false,
    ptt_interrupts := true, turn_state := TurnState.committed,
    bytes_appended_since_commit := 0 }

/-- Concrete idle PTT state with enough buffered audio for a commit. -/
def sPttIdle : ListenState :=
  { enabled := false, ptt_mode := true, ptt_active := false,
    ptt_interrupts := true, turn_state := TurnState.idle,
    bytes_appended_since_commit := 4800 }

/-- Concrete quiet environment: sixteen wait iterations in which the
speech-ended notification never arrives and each iteration consumes
exactly the 100 ms wait timeout. -/
def envQuiet16 : List WaitObs :=
  List.replicate 16 { speechEnded := false, committedByServer := false, duration := 100 }

/-- C1: a sentinel received while the turn is already committed is a
no-op: the state is unchanged and nothing is sent to the session. -/
theorem sentinel_while_committed_noop (env : List WaitObs) (s : ListenState)
    (h : s.turn_state = TurnState.committed) :
    mic_send_on_sentinel env s = (s, []) := by
  unfold mic_send_on_sentinel
  rw [if_pos h]

/-- Witness for C1 at a concrete committed state. -/
theorem sentinel_while_committed_noop_witness :
    sCommitted.turn_state = TurnState.committed ∧
      mic_send_on_sentinel envQuiet16 sCommitted = (sCommitted, []) :=
  ⟨by decide, sentinel_while_committed_noop envQuiet16 sCommitted (by decide)⟩

/-- Concrete committed state with a few buffered bytes, as arises when the
server auto-commit races with trailing capture. -/
def sCommittedResidual : ListenState :=
  { enabled := false, ptt_mode := true, ptt_active := false,
    ptt_interrupts := true, turn_state := TurnState.committed,
    bytes_appended_since_commit := 100 }

/-- C2 counterexample: a sentinel processed with
`bytes_appended_since_commit < MIN_AUDIO_BYTES` but `turn_state` already
committed takes the double-commit guard, so the state is NOT left idle and
the byte counter is NOT reset, contradicting the claim as stated. -/
theorem sub_min_commit_counterexample :
    sCommittedResidual.bytes_appended_since_commit < MIN_AUDIO_BYTES ∧
    (mic_send_on_sentinel [] sCommittedResidual).1.turn_state ≠ TurnState.idle ∧
    (mic_send_on_sentinel [] sCommittedResidual).1.bytes_appended_since_commit ≠ 0 := by
  decide

/-- C2 amended: for every sentinel processed while the turn is not already
committed and fewer than `MIN_AUDIO_BYTES` bytes have been appended, the
commit is silently dropped: nothing is sent to the session, the turn state
is set to idle, and the byte counter is reset to 0. -/
theorem sub_min_commit_dropped (env : List WaitObs) (s : ListenState)
    (hnc : s.turn_state ≠ TurnState.committed)
    (hb : s.bytes_appended_since_commit < MIN_AUDIO_BYTES) :
    mic_send_on_sentinel env s =
      ({ s with turn_state := TurnState.idle,
                bytes_appended_since_commit := 0 }, []) := by
  unfold mic_send_on_sentinel
  rw [if_neg hnc, if_pos hb]

/-- Concrete idle state with too little audio for a commit. -/
def sIdleShort : ListenState :=
  { enabled := true, ptt_mode := false, ptt_active := false,
    ptt_interrupts := true, turn_state := TurnState.idle,
    bytes_appended_since_commit := 120 }

/-- Witness for the amended C2 at a concrete under-threshold state. -/
theorem sub_min_commit_dropped_witness :
    sIdleShort.turn_state ≠ TurnState.committed ∧
    sIdleShort.bytes_appended_since_commit < MIN_AUDIO_BYTES ∧
    mic_send_on_sentinel [] sIdleShort =
      ({ sIdleShort with turn_state := TurnState.idle,
                         bytes_appended_since_commit := 0 }, []) :=
  ⟨by decide, by decide, sub_min_commit_dropped [] sIdleShort (by decide) (by decide)⟩

/-- The PTT wait loop under a quiet environment (speech-ended never
observed, no server commit, each iteration consuming at least the 100 ms
wait timeout) force-commits exactly once: the trace is some number of
silence sends followed by the single local force-commit marker, and the
final state is committed with the byte counter reset. -/
theorem pttWaitLoop_quiet (env : List WaitObs) :
    ∀ (s : ListenState) (elapsed : Nat),
      (∀ p ∈ env, p.speechEnded = false ∧ p.committedByServer = false ∧
        100 ≤ p.duration) →
      s.turn_state = TurnState.awaiting_speech_end →
      elapsed ≤ MAX_WAIT_MS →
      MAX_WAIT_MS < elapsed + 100 * env.length →
      ∃ n, 1 ≤ n ∧
        pttWaitLoop env s elapsed =
          ({ s with turn_state := TurnState.committed,
                    bytes_appended_since_commit := 0 },
           List.replicate n (SendAction.send_audio SILENCE_CHUNK_SIZE false) ++
             [SendAction.force_commit_local]) := by
  induction env with
  | nil =>
    intro s elapsed _ _ he hlen
    simp only [List.length_nil, Nat.mul_zero, Nat.add_zero] at hlen
    omega
  | cons o rest ih =>
    intro s elapsed hq hawait he hlen
    obtain ⟨hse, hcb, hd⟩ := hq o (List.mem_cons_self o rest)
    have hqr : ∀ p ∈ rest,
        p.speechEnded = false ∧ p.committedByServer = false ∧ 100 ≤ p.duration :=
      fun p hp => hq p (List.mem_cons_of_mem o hp)
    obtain ⟨en, pm, pa, pi, ts, bs⟩ := s
    simp only at hawait
    subst hawait
    by_cases hgt : MAX_WAIT_MS < elapsed + o.duration
    · exact ⟨1, Nat.le_refl 1, by simp [pttWaitLoop, hse, hcb, hgt]⟩
    · have hlen2 : MAX_WAIT_MS < (elapsed + o.duration) + 100 * rest.length := by
        simp only [List.length_cons] at hlen
        omega
      obtain ⟨n, hn, hrec⟩ :=
        ih { enabled := en, ptt_mode := pm, ptt_active := pa, ptt_interrupts := pi,
             turn_state := TurnState.awaiting_speech_end,
             bytes_appended_since_commit := bs + SILENCE_CHUNK_SIZE }
          (elapsed + o.duration) hqr rfl (by omega) hlen2
      refine ⟨n + 1, by omega, ?_⟩
      simp [pttWaitLoop, hse, hcb, hgt, hrec, List.replicate_succ]

/-- C3: in push-to-talk mode, when no speech-ended notification arrives
within the bounded 1.5 s wait, the coordinator transitions to committed
exactly once (the single trailing `force_commit_local`), sends only
silence frames with `commit=False` before that transition and nothing
after it, and never resends a commit. -/
theorem ptt_timeout_commits_once (env : List WaitObs) (s : ListenState)
    (hq : ∀ p ∈ env, p.speechEnded = false ∧ p.committedByServer = false ∧
      100 ≤ p.duration)
    (hlen : 16 ≤ env.length)
    (hptt : s.ptt_mode = true)
    (hnc : s.turn_state ≠ TurnState.committed)
    (hb : MIN_AUDIO_BYTES ≤ s.bytes_appended_since_commit) :
    ∃ n, 1 ≤ n ∧
      mic_send_on_sentinel env s =
        ({ s with turn_state := TurnState.committed,
                  bytes_appended_since_commit := 0 },
         List.replicate n (SendAction.send_audio SILENCE_CHUNK_SIZE false) ++
           [SendAction.force_commit_local]) := by
  unfold mic_send_on_sentinel
  rw [if_neg hnc, if_neg (by omega), if_pos hptt]
  obtain ⟨n, hn, hrec⟩ :=
    pttWaitLoop_quiet env { s with turn_state := TurnState.awaiting_speech_end } 0
      hq rfl (Nat.zero_le _) (by simp only [MAX_WAIT_MS]; omega)
  exact ⟨n, hn, hrec⟩

/-- Witness for C3: sixteen quiet 100 ms iterations from an idle PTT state
with exactly the minimum buffered audio. -/
theorem ptt_timeout_commits_once_witness :
    (∀ p ∈ envQuiet16, p.speechEnded = false ∧ p.committedByServer = false ∧
      100 ≤ p.duration) ∧
    16 ≤ envQuiet16.length ∧
    sPttIdle.ptt_mode = true ∧
    sPttIdle.turn_state ≠ TurnState.committed ∧
    MIN_AUDIO_BYTES ≤ sPttIdle.bytes_appended_since_commit ∧
    ∃ n, 1 ≤ n ∧
      mic_send_on_sentinel envQuiet16 sPttIdle =
        ({ sPttIdle with turn_state := TurnState.committed,
                         bytes_appended_since_commit := 0 },
         List.replicate n (SendAction.send_audio SILENCE_CHUNK_SIZE false) ++
           [SendAction.force_commit_local]) :=
  ⟨by decide, by decide, by decide, by decide, by decide,
   ptt_timeout_commits_once envQuiet16 sPttIdle (by decide) (by decide)
     (by decide) (by decide) (by decide)⟩

/-- State visible to the `/mic` and `/ptt` command branches of
`user_input_loop`: the shared `ListenState`, whether the mic stream is
running (`MicStreamer._running`), and whether a keyboard listener is
installed and running (`PTTState.keyboard_listener`). -/
structure AppState where
  listen : ListenState
  mic_running : Bool
  kb_active : Bool
deriving DecidableEq, Repr

/-- Observable effects of a mode-switch command. -/
inductive UIAction where
  | mic_stop (commit : Bool)
  | mic_start
  | session_interrupt
  | player_clear
  | print_error
deriving DecidableEq, Repr

/-- The `/mic` branch of `user_input_loop`: rejected if already in
continuous mode; otherwise leaves PTT mode (stopping the keyboard
listener), enables continuous listening, stops any current recording
without commit, interrupts the session, clears the player, and starts
capture. -/
def cmdMic (st : AppState) : AppState × List UIAction :=
  if st.listen.enabled = true ∧ st.listen.ptt_mode = false then
    (st, [UIAction.print_error])
  else
    let l1 := if st.listen.ptt_mode then { st.listen with ptt_mode := false }
              else st.listen
    let kb1 := if st.listen.ptt_mode then false else st.kb_active
    ({ listen := { l1 with enabled := true }, mic_running := true,
       kb_active := kb1 },
     [UIAction.mic_stop false, UIAction.session_interrupt,
      UIAction.player_clear, UIAction.mic_start])

/-- The `/ptt` branch of `user_input_loop`: rejected if already in PTT
mode; otherwise disables continuous listening (stopping the mic without
commit if it was enabled), enables PTT mode, and starts the keyboard
listener. -/
def cmdPtt (st : AppState) : AppState × List UIAction :=
  if st.listen.ptt_mode = true then (st, [UIAction.print_error])
  else if st.listen.enabled then
    ({ listen := { st.listen with enabled := false, ptt_mode := true },
       mic_running := false, kb_active := true },
     [UIAction.mic_stop false])
  else
    ({ listen := { st.listen with ptt_mode := true },
       mic_running := st.mic_running, kb_active := true }, [])

/-- PTT-mode app state whose turn is committed, used to show mode
switching does not reset the turn state. -/
def stPttCommitted : AppState :=
  { listen := { enabled := false, ptt_mode := true, ptt_active := false,
                ptt_interrupts := true, turn_state := TurnState.committed,
                bytes_appended_since_commit := 0 },
    mic_running := false, kb_active := true }

/-- C4 counterexample: switching from push-to-talk back to continuous via
`/mic` leaves `turn_state` untouched — here it stays committed instead of
being reset to idle as the claim states. -/
theorem mode_switch_counterexample :
    (cmdMic stPttCommitted).1.listen.turn_state = TurnState.committed ∧
    TurnState.committed ≠ TurnState.idle := by
  decide

/-- C4 amended: every mode switch stops the previous mode's capture with
`commit=false` (`/mic` then restarts capture for continuous listening),
and afterwards at most one listen mode is active; `turn_state` is left
unchanged by the switch itself. -/
theorem mode_switch_exclusive (s t : AppState)
    (hs : s.listen.ptt_mode = true)
    (ht1 : t.listen.enabled = true) (ht2 : t.listen.ptt_mode = false) :
    (¬((cmdMic s).1.listen.enabled = true ∧ (cmdMic s).1.listen.ptt_mode = true) ∧
      (cmdMic s).1.listen.turn_state = s.listen.turn_state ∧
      UIAction.mic_stop false ∈ (cmdMic s).2) ∧
    (¬((cmdPtt t).1.listen.enabled = true ∧ (cmdPtt t).1.listen.ptt_mode = true) ∧
      (cmdPtt t).1.listen.turn_state = t.listen.turn_state ∧
      (cmdPtt t).1.mic_running = false ∧
      UIAction.mic_stop false ∈ (cmdPtt t).2) := by
  constructor
  · unfold cmdMic
    rw [if_neg (by simp [hs])]
    simp [hs]
  · unfold cmdPtt
    rw [if_neg (by simp [ht2]), if_pos (by simp [ht1])]
    simp

/-- Continuous-mode app state used to witness the `/ptt` direction. -/
def stContinuous : AppState :=
  { listen := { enabled := true, ptt_mode := false, ptt_active := false,
                ptt_interrupts := true, turn_state := TurnState.idle,
                bytes_appended_since_commit := 0 },
    mic_running := true, kb_active := false }

/-- Witness for the amended C4 at concrete PTT and continuous states. -/
theorem mode_switch_exclusive_witness :
    stPttCommitted.listen.ptt_mode = true ∧
    stContinuous.listen.enabled = true ∧
    stContinuous.listen.ptt_mode = false ∧
    ((¬((cmdMic stPttCommitted).1.listen.enabled = true ∧
        (cmdMic stPttCommitted).1.listen.ptt_mode = true) ∧
      (cmdMic stPttCommitted).1.listen.turn_state = stPttCommitted.listen.turn_state ∧
      UIAction.mic_stop false ∈ (cmdMic stPttCommitted).2) ∧
     (¬((cmdPtt stContinuous).1.listen.enabled = true ∧
        (cmdPtt stContinuous).1.listen.ptt_mode = true) ∧
      (cmdPtt stContinuous).1.listen.turn_state = stContinuous.listen.turn_state ∧
      (cmdPtt stContinuous).1.mic_running = false ∧
      UIAction.mic_stop false ∈ (cmdPtt stContinuous).2)) :=
  ⟨by decide, by decide, by decide,
   mode_switch_exclusive stPttCommitted stContinuous (by decide) (by decide) (by decide)⟩

/-- Log outputs of `connection_health_monitor`. `warning` is the mild
"Long idle period detected" message; `escalation` is the stronger
"connection may be stale ... /quit and restart" message. -/
inductive HealthLog where
  | warning
  | escalation
deriving DecidableEq, Repr

/-- Warning threshold of `connection_health_monitor`
(`IDLE_WARNING_THRESHOLD = 600` seconds). -/
def IDLE_WARNING_THRESHOLD : Nat := 600

/-- Error threshold of `connection_health_monitor`
(`IDLE_ERROR_THRESHOLD = 900` seconds). -/
def IDLE_ERROR_THRESHOLD : Nat := 900

/-- One wake-up of `connection_health_monitor` at an observed idle time
(seconds since `last_server_event_time`): the escalation fires only when
idle exceeds the error threshold with the latch clear, the mild warning
when idle exceeds the warning threshold with the latch clear, and the
latch resets when idle drops strictly below the warning threshold. -/
def healthTick (warned : Bool) (idle : Nat) : Bool × List HealthLog :=
  if IDLE_ERROR_THRESHOLD < idle ∧ warned = false then (true, [HealthLog.escalation])
  else if IDLE_WARNING_THRESHOLD < idle ∧ warned = false then (true, [HealthLog.warning])
  else if idle < IDLE_WARNING_THRESHOLD then (false, [])
  else (warned, [])

/-- Run of `connection_health_monitor` over a sequence of observed idle
times (one per 60 s wake-up), accumulating the emitted log messages. -/
def healthRun (warned : Bool) : List Nat → Bool × List HealthLog
  | [] => (warned, [])
  | i :: rest =>
    let r := healthTick warned i
    let r2 := healthRun r.1 rest
    (r2.1, r.2 ++ r2.2)

/-- Idle times seen by the monitor when the server falls silent right
after startup: the monitor wakes every 60 s, so it observes
60, 120, ..., 960 seconds of idle time. -/
def idleTrace16 : List Nat := (List.range 16).map (fun k => 60 * (k + 1))

/-- C5 evaluation at the failing trace: with the server silent for 16
minutes the monitor emits exactly one mild warning (when idle first
exceeds 600 s) and never the escalation, even though the observed idle
time 960 s exceeds the 900 s error threshold — the `not warned` guard on
the escalation branch is already latched by the mild warning, so the
claimed escalation past 15 minutes never happens. -/
theorem health_monitor_no_escalation :
    healthRun false idleTrace16 = (true, [HealthLog.warning]) ∧
    960 ∈ idleTrace16 ∧ IDLE_ERROR_THRESHOLD < 960 := by
  decide

/-- The `ElevenLabsTTS` text/task state: `text_buffer` is the pending
sentence fragment, `speaking_tasks` records the text of each in-flight
`_speak_async` task, `is_speaking` mirrors the flag of the same name. -/
structure ElevenLabsTTSState where
  text_buffer : String
  speaking_tasks : List String
  is_speaking : Bool
deriving DecidableEq, Repr

/-- The `AudioPlayer` shared buffer state: buffered PCM bytes and the
monotonic timestamp (ms) of the last write. -/
structure AudioPlayerState where
  buf : List Nat
  last_write_ts : Nat
deriving DecidableEq, Repr

/-- `AudioPlayer.clear`: drop all buffered audio; the last-write
timestamp is not touched. -/
def player_clear (p : AudioPlayerState) : AudioPlayerState :=
  { p with buf := [] }

/-- `AudioPlayer.write`: append PCM bytes (no-op on empty input) and
record the write time. -/
def player_write (p : AudioPlayerState) (pcm : List Nat) (now : Nat) :
    AudioPlayerState :=
  if pcm = [] then p
  else { p with buf := p.buf ++ pcm, last_write_ts := now }

/-- `ElevenLabsTTS.interrupt`: clear the text buffer, cancel and drop all
speaking tasks, clear the player buffer, and reset `is_speaking`. -/
def tts_interrupt (t : ElevenLabsTTSState) (p : AudioPlayerState) :
    ElevenLabsTTSState × AudioPlayerState :=
  let t1 := { t with text_buffer := "" }
  let t2 := { t1 with speaking_tasks := [] }
  ({ t2 with is_speaking := false }, player_clear p)

/-- C6: after `interrupt()` the text buffer is empty, the pending-task
set is empty, and the playback buffer is empty, whatever the prior state
(any buffered text, any number of in-flight sentence tasks, any buffered
audio). -/
theorem interrupt_clears_everything (t : ElevenLabsTTSState) (p : AudioPlayerState) :
    (tts_interrupt t p).1.text_buffer = "" ∧
    (tts_interrupt t p).1.speaking_tasks = [] ∧
    (tts_interrupt t p).2.buf = [] := by
  exact ⟨rfl, rfl, rfl⟩

/-- Sentence-terminating characters of the regex `([.!?\n])` used by
`ElevenLabsTTS.add_text`. -/
def isSentenceDelim (c : Char) : Bool :=
  c == '.' || c == '!' || c == '?' || c == '\n'

/-- Python `str.strip()`: drop whitespace from both ends. -/
def pyStrip (s : String) : String :=
  String.mk
    (((s.toList.dropWhile Char.isWhitespace).reverse.dropWhile
        Char.isWhitespace).reverse)

/-- Python `str.lower()` (ASCII case folding suffices for the key names
involved). -/
def pyLower (s : String) : String := String.mk (s.toList.map Char.toLower)

/-- Worker for `splitKeep`: accumulates the current segment (reversed)
and emits `segment, delimiter` pairs, ending with the trailing segment. -/
def splitKeepAux : List Char → List Char → List String
  | [], acc => [String.mk acc.reverse]
  | c :: cs, acc =>
    if isSentenceDelim c then
      String.mk acc.reverse :: String.mk [c] :: splitKeepAux cs []
    else
      splitKeepAux cs (c :: acc)

/-- `re.split(r'([.!?\n])', s)`: split on each sentence-terminating
character, keeping the delimiters; the result alternates
segment, delimiter, ..., segment and always has odd length. -/
def splitKeep (s : String) : List String := splitKeepAux s.toList []

/-- `ElevenLabsTTS.add_text`: append the delta to the text buffer, split
on sentence punctuation keeping delimiters, gather every complete
sentence (all parts except the trailing fragment) into one string, retain
the trailing fragment as the new buffer, and — when the gathered text is
non-blank — start a single `_speak_async` task for the stripped gathered
text. -/
def tts_add_text (t : ElevenLabsTTSState) (text : String) : ElevenLabsTTSState :=
  let buf := t.text_buffer ++ text
  let sentences := splitKeep buf
  let complete := String.join sentences.dropLast
  let remaining := sentences.getLastD ""
  let t1 := { t with text_buffer := remaining }
  if pyStrip complete ≠ "" then
    { t1 with speaking_tasks := t1.speaking_tasks ++ [pyStrip complete] }
  else t1

/-- Fresh `ElevenLabsTTS` state as built by `__init__`. -/
def ttsInit : ElevenLabsTTSState :=
  { text_buffer := "", speaking_tasks := [], is_speaking := false }

/-- C7 counterexample: a single `add_text("A. B.")` call containing two
complete sentences issues ONE synthesis task for the batched text
`"A. B."`, not one task per sentence as the claim states. -/
theorem add_text_per_sentence_counterexample :
    (tts_add_text ttsInit "A. B.").speaking_tasks = ["A. B."] ∧
    (tts_add_text ttsInit "A. B.").speaking_tasks.length ≠ 2 := by
  decide

/-- C7 amended: the two-call scenario produces exactly the two synthesis
texts "Hello there." and "How are you?" and leaves the buffer empty; in
general each `add_text` call issues AT MOST ONE synthesis task (batching
all complete sentences found, stripped) and retains the trailing
incomplete fragment in the buffer. -/
theorem add_text_batches_sentences :
    ((tts_add_text (tts_add_text ttsInit "Hello there. How are") " you?").speaking_tasks
        = ["Hello there.", "How are you?"] ∧
      (tts_add_text (tts_add_text ttsInit "Hello there. How are") " you?").text_buffer
        = "") ∧
    ∀ (t : ElevenLabsTTSState) (x : String), ∃ new,
      (tts_add_text t x).speaking_tasks = t.speaking_tasks ++ new ∧
      new.length ≤ 1 ∧
      (tts_add_text t x).text_buffer = (splitKeep (t.text_buffer ++ x)).getLastD "" := by
  refine ⟨by decide, ?_⟩
  intro t x
  by_cases h : pyStrip (String.join (splitKeep (t.text_buffer ++ x)).dropLast) = ""
  · exact ⟨[], by simp [tts_add_text, h], by simp, by simp [tts_add_text, h]⟩
  · exact ⟨[pyStrip (String.join (splitKeep (t.text_buffer ++ x)).dropLast)],
      by simp [tts_add_text, h], by simp, by simp [tts_add_text, h]⟩

/-- Items on the `MicStreamer` asyncio queue: raw PCM chunks, or the
`None` end-of-turn sentinel pushed by `stop(commit=True)`. -/
inductive QItem where
  | chunk (data : List Nat)
  | sentinel
deriving DecidableEq, Repr

/-- `MicStreamer` state: the `_running` flag, whether the sounddevice
input stream is active, and the queue contents. -/
structure MicState where
  running : Bool
  stream_active : Bool
  queue : List QItem
deriving DecidableEq, Repr

/-- `MicStreamer._callback`: fired by the hardware thread with a chunk;
enqueues it only when the running flag is set and the optional mute
predicate (evaluated at this instant; `none` models no predicate
configured) does not report playback in progress. The function is total:
every branch returns, mirroring the callback's never-raising early
returns. -/
def mic_callback (s : MicState) (muteVal : Option Bool) (data : List Nat) :
    MicState :=
  if s.running = false then s
  else if muteVal = some true then s
  else { s with queue := s.queue ++ [QItem.chunk data] }

/-- One hardware callback delivery: the mute predicate's value at that
instant and the delivered chunk. -/
structure MicCbEvent where
  muteVal : Option Bool
  data : List Nat
deriving DecidableEq, Repr

/-- A sequence of hardware callback firings applied in order. -/
def mic_callback_run (s : MicState) : List MicCbEvent → MicState
  | [] => s
  | e :: es => mic_callback_run (mic_callback s e.muteVal e.data) es

/-- C8: for every sequence of hardware callbacks fired while capture is
inactive or while the mute predicate returns true, the state — and in
particular the queue — is unchanged: zero chunks are enqueued. -/
theorem gated_callbacks_enqueue_nothing (es : List MicCbEvent) :
    ∀ (s : MicState),
      (∀ e ∈ es, s.running = false ∨ e.muteVal = some true) →
      mic_callback_run s es = s := by
  induction es with
  | nil => intro s _; rfl
  | cons e rest ih =>
    intro s hq
    have hstep : mic_callback s e.muteVal e.data = s := by
      rcases hq e (List.mem_cons_self e rest) with h | h
      · unfold mic_callback; rw [if_pos h]
      · unfold mic_callback
        by_cases hr : s.running = false
        · rw [if_pos hr]
        · rw [if_neg hr, if_pos h]
    show mic_callback_run (mic_callback s e.muteVal e.data) rest = s
    rw [hstep]
    exact ih s (fun p hp => hq p (List.mem_cons_of_mem e hp))

/-- Concrete capture-inactive state and muted/unmuted callback events. -/
def micIdle : MicState :=
  { running := false, stream_active := false, queue := [] }

/-- Two concrete callback firings while capture is inactive. -/
def cbEventsIdle : List MicCbEvent :=
  [{ muteVal := none, data := [1, 2, 3] }, { muteVal := some true, data := [4] }]

/-- Witness for C8 at a concrete inactive state. -/
theorem gated_callbacks_enqueue_nothing_witness :
    (∀ e ∈ cbEventsIdle, micIdle.running = false ∨ e.muteVal = some true) ∧
    mic_callback_run micIdle cbEventsIdle = micIdle :=
  ⟨by decide,
   gated_callbacks_enqueue_nothing cbEventsIdle micIdle (by decide)⟩

/-- `MicStreamer.stop(commit)`: a no-op when not running; otherwise clear
the running flag, stop the hardware stream, and — when `commit` is true —
push the `None` end-of-turn sentinel onto the queue. -/
def mic_stop (s : MicState) (commit : Bool) : MicState :=
  if s.running = false then s
  else { running := false, stream_active := false,
         queue := if commit then s.queue ++ [QItem.sentinel] else s.queue }

/-- C9: calling `stop(commit=True)` while the streamer is not running is a
complete no-op — the stream is untouched and no sentinel is enqueued, so a
commit request can only originate from a stop that follows a matching
start. -/
theorem stop_when_not_running_noop (s : MicState) (h : s.running = false) :
    mic_stop s true = s := by
  unfold mic_stop
  rw [if_pos h]

/-- Witness for C9: a streamer that was never started. -/
theorem stop_when_not_running_noop_witness :
    micIdle.running = false ∧ mic_stop micIdle true = micIdle :=
  ⟨by decide, stop_when_not_running_noop micIdle (by decide)⟩

/-- Keys a single-key push-to-talk configuration can resolve to
(`KeyboardListener._parse_key`): the recognized pynput special keys, a
function key, or a plain character. -/
inductive PKey where
  | space
  | ctrl
  | shift
  | alt
  | cmd
  | tab
  | enter
  | backspace
  | fkey (n : Nat)
  | char (c : Char)
deriving DecidableEq, Repr

/-- The `special_keys` table of `KeyboardListener._parse_key`. -/
def special_keys : List (String × PKey) :=
  [("space", PKey.space), ("ctrl", PKey.ctrl), ("shift", PKey.shift),
   ("alt", PKey.alt), ("cmd", PKey.cmd), ("tab", PKey.tab),
   ("enter", PKey.enter), ("backspace", PKey.backspace),
   ("f1", PKey.fkey 1), ("f2", PKey.fkey 2), ("f3", PKey.fkey 3),
   ("f4", PKey.fkey 4), ("f5", PKey.fkey 5), ("f6", PKey.fkey 6),
   ("f7", PKey.fkey 7), ("f8", PKey.fkey 8), ("f9", PKey.fkey 9),
   ("f10", PKey.fkey 10), ("f11", PKey.fkey 11), ("f12", PKey.fkey 12)]

/-- Whether a normalized key name is in the `special_keys` table. -/
def is_special_name (n : String) : Bool := (special_keys.lookup n).isSome

/-- `KeyboardListener._parse_key`: normalize with `lower().strip()`, look
the name up in the special-key table, fall back to the single character
for length-1 names, and otherwise default to the space key (logging a
notice), never failing. -/
def parse_key (k : String) : PKey :=
  match special_keys.lookup (pyStrip (pyLower k)) with
  | some key => key
  | none =>
    match (pyStrip (pyLower k)).toList with
    | [c] => PKey.char c
    | _ => PKey.space

/-- C10: every single-key configuration whose normalized name is neither
a recognized special key name nor a single character resolves to the
space key — push-to-talk falls back rather than failing. -/
theorem unrecognized_key_defaults_to_space (k : String)
    (h1 : is_special_name (pyStrip (pyLower k)) = false)
    (h2 : (pyStrip (pyLower k)).toList.length ≠ 1) :
    parse_key k = PKey.space := by
  unfold parse_key
  split
  · rename_i key hlook
    exfalso
    unfold is_special_name at h1
    rw [hlook] at h1
    simp at h1
  · split
    · rename_i c hlist
      exact absurd (by rw [hlist]; rfl : (pyStrip (pyLower k)).toList.length = 1) h2
    · rfl

/-- Witness for C10 at the unrecognized name "volume". -/
theorem unrecognized_key_defaults_to_space_witness :
    is_special_name (pyStrip (pyLower "volume")) = false ∧
    (pyStrip (pyLower "volume")).toList.length ≠ 1 ∧
    parse_key "volume" = PKey.space :=
  ⟨by decide, by decide,
   unrecognized_key_defaults_to_space "volume" (by decide) (by decide)⟩
